import Mathlib

/-!
Shallow embedding of the ezdma character driver (src/drivers/dma/ezdma.c).

The driver state visible to the claims is the per-channel `struct
ezdma_drvdata` (direction, in_use, accepting, FSM state, inflight record)
together with the side effects the code performs on the kernel and the DMA
engine.  Side effects are recorded as an explicit event trace; external
results (kmalloc, sg_alloc_table, get_user_pages_fast, dma_map_sg,
dmaengine_prep_slave_sg, dmaengine_submit, wait/semaphore outcomes) are
supplied by oracle records, one field per call site, so every control path
of the C code is reachable in the model.
-/

/-- Memory page size used by the driver through the PAGE_SIZE macro. -/
def PAGE_SIZE : Nat := 4096

/-- EZDMA_ALIGN_BYTES from ezdma.c: reads and writes must be multiples of this. -/
def EZDMA_ALIGN_BYTES : Nat := 1

/-- DMA_MIN_COOKIE from the dmaengine interface: valid cookies are at least 1. -/
def DMA_MIN_COOKIE : Int := 1

/-- errno value for out-of-memory. -/
def ENOMEM : Int := 12

/-- errno value for invalid argument. -/
def EINVAL : Int := 22

/-- errno value for device or resource busy. -/
def EBUSY : Int := 16

/-- errno value for bad file handle. -/
def EBADF : Int := 9

/-- errno value for interrupted system call that should be restarted. -/
def ERESTARTSYS : Int := 512

/-- Transfer direction (enum ezdma_dir): RX is devToCpu, TX is cpuToDev. -/
inductive EzdmaDir where
  | devToCpu
  | cpuToDev
deriving DecidableEq, Repr

/-- The driver FSM (enum dma_fsm_state): DMA_IDLE, DMA_IN_FLIGHT, DMA_COMPLETING. -/
inductive DmaFsmState where
  | idle
  | inFlight
  | completing
deriving DecidableEq, Repr

/-- One scatter-gather entry: (intra-page offset, byte length), as set by
sg_set_page in ezdma_prepare_for_dma. -/
abbrev SgEntry := Nat × Nat

/-- struct ezdma_inflight_info.  The pinned_pages pointer is modelled by a
Bool recording whether it is non-NULL; the sg table contents are the list
of (offset, length) entries written by sg_set_page. -/
structure InflightInfo where
  pinned_pages : Bool
  num_pages : Nat
  table : List SgEntry
  table_allocated : Bool
  pages_pinned : Bool
  dma_mapped : Bool
  dma_started : Bool
deriving DecidableEq, Repr

/-- The fields of struct ezdma_drvdata that the transfer logic reads or
writes.  Locks, the wait queue, the channel handle and the device
accounting fields have no state of their own in the model; lock-protected
sections are sequentialised and waits are resolved by oracle fields. -/
structure EzdmaDrvdata where
  dir : EzdmaDir
  in_use : Bool
  accepting : Bool
  state : DmaFsmState
  inflight : InflightInfo
deriving DecidableEq, Repr

/-- Observable side effects on the kernel and the DMA engine, in program
order. -/
inductive Event where
  | dmaUnmapSg
  | setPageDirty (i : Nat)
  | putPage (i : Nat)
  | sgFreeTable
  | kfreePages
  | dmaengineSubmit
  | dmaIssuePending
  | dmaengineTerminateAll
  | wakeUp
deriving DecidableEq, Repr

/-- Results of the external calls made by ezdma_prepare_for_dma, one field
per call site. -/
structure PrepOracle where
  kmallocOk : Bool
  sgAllocRv : Int
  gupRv : Int
  dmaMapRv : Nat
  prepDescOk : Bool
  cookie : Int
deriving DecidableEq, Repr

/-- Outcomes of the blocking steps of ezdma_read / ezdma_write: the initial
down_interruptible, whether the completion callback ran while the caller
was waiting, the wait_event_interruptible result, and whether the
down_timeout reacquisition failed. -/
structure WaitEnv where
  downInterrupted : Bool
  callbackRan : Bool
  wait_rv : Int
  downTimeoutFailed : Bool
deriving DecidableEq, Repr

/-- offset_in_page(addr): the offset of an address within its page. -/
def offset_in_page (addr : Nat) : Nat := addr % PAGE_SIZE

/-- Page count computed in ezdma_prepare_for_dma:
(offset_in_page(userbuf) + count + PAGE_SIZE-1) / PAGE_SIZE. -/
def ezdma_num_pages (userbuf count : Nat) : Nat :=
  (offset_in_page userbuf + count + PAGE_SIZE - 1) / PAGE_SIZE

/-- One iteration of the scatterlist-building loop in ezdma_prepare_for_dma:
for loop index i and left_to_map bytes remaining, the (offset, len) pair
passed to sg_set_page. -/
def sgl_segment (userbuf : Nat) (i : Nat) (left : Nat) : SgEntry :=
  let len := if left > PAGE_SIZE then PAGE_SIZE else left
  if i = 0 then
    let offset := offset_in_page userbuf
    let len2 := if offset + len > PAGE_SIZE then PAGE_SIZE - offset else len
    (offset, len2)
  else
    (0, len)

/-- The scatterlist-building loop of ezdma_prepare_for_dma, unrolled: n
segments remain, i is the loop index, left is left_to_map. -/
def build_sgl_from (userbuf : Nat) : Nat → Nat → Nat → List SgEntry
  | 0, _, _ => []
  | n+1, i, left =>
    let seg := sgl_segment userbuf i left
    seg :: build_sgl_from userbuf n (i+1) (left - seg.2)

/-- The full scatter-gather table built by ezdma_prepare_for_dma for a
buffer at address userbuf of count bytes. -/
def build_sgl (userbuf count : Nat) : List SgEntry :=
  build_sgl_from userbuf (ezdma_num_pages userbuf count) 0 count

/-- The set_page_dirty / put_page loop of ezdma_unprepare_after_dma over
pages 0 .. n-1, in program order. -/
def dirty_put_events : Nat → List Event
  | 0 => []
  | n+1 => dirty_put_events n ++ [Event.setPageDirty n, Event.putPage n]

/-- The zeroed inflight record produced by the memset at the top of
ezdma_prepare_for_dma. -/
def zeroInflight : InflightInfo :=
  { pinned_pages := false, num_pages := 0, table := [], table_allocated := false,
    pages_pinned := false, dma_mapped := false, dma_started := false }

/-- ezdma_unprepare_after_dma: sets state to DMA_IDLE, then unwinds each
stage whose progress flag is set, clearing the flags as the C code does.
put_page is only reached when dma_started is set and the direction is
DEV_TO_CPU, exactly as in the source. -/
def ezdma_unprepare_after_dma (p : EzdmaDrvdata) : EzdmaDrvdata × List Event :=
  let p1 := { p with state := DmaFsmState.idle }
  let ev1 : List Event := if p1.inflight.dma_mapped then [Event.dmaUnmapSg] else []
  let p2 := { p1 with inflight.dma_mapped := false }
  let ev2 : List Event :=
    if p2.inflight.pages_pinned then
      if p2.inflight.dma_started = true ∧ p2.dir = EzdmaDir.devToCpu then
        dirty_put_events p2.inflight.num_pages
      else []
    else []
  let p3 := { p2 with inflight.pages_pinned := false }
  let ev3 : List Event := if p3.inflight.table_allocated then [Event.sgFreeTable] else []
  let p4 := { p3 with inflight.table_allocated := false, inflight.table := [] }
  let ev4 : List Event := if p4.inflight.pinned_pages then [Event.kfreePages] else []
  let p5 := { p4 with inflight.pinned_pages := false }
  (p5, ev1 ++ ev2 ++ ev3 ++ ev4)

/-- ezdma_dmaengine_callback_func: under state_lock, if the state is
DMA_IN_FLIGHT move to DMA_COMPLETING and wake the wait queue; otherwise do
nothing. -/
def ezdma_dmaengine_callback_func (p : EzdmaDrvdata) : EzdmaDrvdata × List Event :=
  if p.state = DmaFsmState.inFlight then
    ({ p with state := DmaFsmState.completing }, [Event.wakeUp])
  else
    (p, [])

/-- ezdma_prepare_for_dma: compute the page count, allocate the page array
and sg table, pin the pages, build and map the scatterlist, build the
descriptor and submit it; on any failure jump to err_out, which runs
ezdma_unprepare_after_dma on the partial state and returns the error
value the C code returns there. -/
def ezdma_prepare_for_dma (p : EzdmaDrvdata) (orc : PrepOracle) (userbuf count : Nat) :
    EzdmaDrvdata × Int × List Event :=
  let np := ezdma_num_pages userbuf count
  let p1 := { p with inflight :=
    { zeroInflight with num_pages := np, pinned_pages := orc.kmallocOk } }
  if orc.kmallocOk = false then
    let u := ezdma_unprepare_after_dma p1
    (u.1, -ENOMEM, u.2)
  else if orc.sgAllocRv ≠ 0 then
    let u := ezdma_unprepare_after_dma p1
    (u.1, orc.sgAllocRv, u.2)
  else
    let p2 := { p1 with inflight.table_allocated := true }
    if orc.gupRv ≠ (np : Int) then
      let u := ezdma_unprepare_after_dma p2
      (u.1, orc.gupRv, u.2)
    else
      let p3 := { p2 with inflight.pages_pinned := true,
                          inflight.table := build_sgl userbuf count }
      if orc.dmaMapRv ≠ np then
        let u := ezdma_unprepare_after_dma p3
        (u.1, (orc.dmaMapRv : Int), u.2)
      else
        let p4 := { p3 with inflight.dma_mapped := true }
        if orc.prepDescOk = false then
          let u := ezdma_unprepare_after_dma p4
          (u.1, -ENOMEM, u.2)
        else if orc.cookie < DMA_MIN_COOKIE then
          let p5 := { p4 with state := DmaFsmState.inFlight }
          let p6 := { p5 with state := DmaFsmState.idle }
          let u := ezdma_unprepare_after_dma p6
          (u.1, orc.cookie, Event.dmaengineSubmit :: u.2)
        else
          let p5 := { p4 with state := DmaFsmState.inFlight, inflight.dma_started := true }
          (p5, 0, [Event.dmaengineSubmit, Event.dmaIssuePending])

/-- ezdma_read: direction check, alignment check, interruptible semaphore
acquisition, accepting check, prepare, wait, timed reacquisition, then
under state_lock terminate the engine if the wait was interrupted while
still in flight, and unwind the transfer.  The return value starts as
count and is only overwritten on the paths that overwrite rv in the C
code. -/
def ezdma_read (p : EzdmaDrvdata) (orc : PrepOracle) (env : WaitEnv) (userbuf count : Nat) :
    EzdmaDrvdata × Int × List Event :=
  if p.dir ≠ EzdmaDir.devToCpu then (p, -EINVAL, [])
  else if count % EZDMA_ALIGN_BYTES ≠ 0 then (p, -EINVAL, [])
  else if env.downInterrupted then (p, -ERESTARTSYS, [])
  else if p.accepting = false then (p, -EBADF, [])
  else
    let prep := ezdma_prepare_for_dma p orc userbuf count
    if prep.2.1 ≠ 0 then prep
    else
      let afterWait := if env.callbackRan then ezdma_dmaengine_callback_func prep.1
                       else (prep.1, ([] : List Event))
      if env.downTimeoutFailed then
        (afterWait.1, (count : Int), prep.2.2 ++ afterWait.2)
      else
        let doTerm := afterWait.1.state = DmaFsmState.inFlight ∧ env.wait_rv = -ERESTARTSYS
        let termEv : List Event := if doTerm then [Event.dmaengineTerminateAll] else []
        let rv2 : Int := if doTerm then env.wait_rv else (count : Int)
        let fin := ezdma_unprepare_after_dma afterWait.1
        (fin.1, rv2, prep.2.2 ++ afterWait.2 ++ termEv ++ fin.2)

/-- ezdma_write: identical to ezdma_read except for the direction check. -/
def ezdma_write (p : EzdmaDrvdata) (orc : PrepOracle) (env : WaitEnv) (userbuf count : Nat) :
    EzdmaDrvdata × Int × List Event :=
  if p.dir ≠ EzdmaDir.cpuToDev then (p, -EINVAL, [])
  else if count % EZDMA_ALIGN_BYTES ≠ 0 then (p, -EINVAL, [])
  else if env.downInterrupted then (p, -ERESTARTSYS, [])
  else if p.accepting = false then (p, -EBADF, [])
  else
    let prep := ezdma_prepare_for_dma p orc userbuf count
    if prep.2.1 ≠ 0 then prep
    else
      let afterWait := if env.callbackRan then ezdma_dmaengine_callback_func prep.1
                       else (prep.1, ([] : List Event))
      if env.downTimeoutFailed then
        (afterWait.1, (count : Int), prep.2.2 ++ afterWait.2)
      else
        let doTerm := afterWait.1.state = DmaFsmState.inFlight ∧ env.wait_rv = -ERESTARTSYS
        let termEv : List Event := if doTerm then [Event.dmaengineTerminateAll] else []
        let rv2 : Int := if doTerm then env.wait_rv else (count : Int)
        let fin := ezdma_unprepare_after_dma afterWait.1
        (fin.1, rv2, prep.2.2 ++ afterWait.2 ++ termEv ++ fin.2)

/-- ezdma_open: take the semaphore interruptibly, fail with EBUSY if
in_use, otherwise set in_use and accepting. -/
def ezdma_open (p : EzdmaDrvdata) (downInterrupted : Bool) : EzdmaDrvdata × Int :=
  if downInterrupted then (p, -ERESTARTSYS)
  else if p.in_use then (p, -EBUSY)
  else ({ p with in_use := true, accepting := true }, 0)

/-- ezdma_release: clear accepting first, then take the semaphore
interruptibly (returning -ERESTARTSYS if interrupted, with accepting
already cleared), terminate all engine work, clear in_use and return 0.
Note: the C code does not call ezdma_unprepare_after_dma here. -/
def ezdma_release (p : EzdmaDrvdata) (downInterrupted : Bool) : EzdmaDrvdata × Int × List Event :=
  let p1 := { p with accepting := false }
  if downInterrupted then (p1, -ERESTARTSYS, [])
  else ({ p1 with in_use := false }, 0, [Event.dmaengineTerminateAll])

/-- Events that unmap or release a pinned page. -/
def releasesPage : Event → Bool
  | Event.putPage _ => true
  | Event.dmaUnmapSg => true
  | _ => false

/-- In trace tr, a dmaengine_terminate_all occurs, and no page is unmapped
or released before the first one. -/
def terminate_precedes_release (tr : List Event) : Prop :=
  Event.dmaengineTerminateAll ∈ tr ∧
  ∀ e ∈ tr.takeWhile (fun x => decide (x ≠ Event.dmaengineTerminateAll)), releasesPage e = false

/-- Following the words of the spec for the descriptor builder, the tail
segments: each starts at offset 0 and carries min(remaining bytes,
pageSize). -/
def spec_sgl_rest : Nat → Nat → List SgEntry
  | 0, _ => []
  | n+1, rem => (0, min rem PAGE_SIZE) :: spec_sgl_rest n (rem - min rem PAGE_SIZE)

/-- Following the words of the spec for the descriptor builder: one segment
per page; the first offset equals the buffer offset within its first page,
its length clamped so it never exceeds pageSize minus that offset; the
rest as in spec_sgl_rest.  Written from the spec sentence, to be compared
with build_sgl, which is written from the source. -/
def spec_sgl (userbuf count : Nat) : List SgEntry :=
  match ezdma_num_pages userbuf count with
  | 0 => []
  | n+1 =>
    let off := offset_in_page userbuf
    let len0 := min count (PAGE_SIZE - off)
    (off, len0) :: spec_sgl_rest n (count - len0)

/-- The fully prepared inflight record after a successful
ezdma_prepare_for_dma for a buffer at ub of cnt bytes. -/
def fullInflight (ub cnt : Nat) : InflightInfo :=
  { pinned_pages := true, num_pages := ezdma_num_pages ub cnt, table := build_sgl ub cnt,
    table_allocated := true, pages_pinned := true, dma_mapped := true, dma_started := true }

/-- A TX device whose transfer completed: all progress flags set,
direction CPU_TO_DEV. -/
def writeDoneCtx : EzdmaDrvdata :=
  { dir := EzdmaDir.cpuToDev, in_use := true, accepting := true,
    state := DmaFsmState.completing,
    inflight := { pinned_pages := true, num_pages := 1, table := [(0, 4096)],
                  table_allocated := true, pages_pinned := true,
                  dma_mapped := true, dma_started := true } }

/-- An RX device whose transfer pinned pages but never started hardware
execution (for example dmaengine_prep_slave_sg failed). -/
def readNeverStartedCtx : EzdmaDrvdata :=
  { dir := EzdmaDir.devToCpu, in_use := true, accepting := true,
    state := DmaFsmState.idle,
    inflight := { pinned_pages := true, num_pages := 1, table := [(0, 4096)],
                  table_allocated := true, pages_pinned := true,
                  dma_mapped := true, dma_started := false } }

/-- An RX device with an in-flight transfer, as seen by a closing thread. -/
def inflightReadCtx : EzdmaDrvdata :=
  { dir := EzdmaDir.devToCpu, in_use := true, accepting := true,
    state := DmaFsmState.inFlight,
    inflight := { pinned_pages := true, num_pages := 2, table := [(0, 4096), (0, 4096)],
                  table_allocated := true, pages_pinned := true,
                  dma_mapped := true, dma_started := true } }

/-- An idle, open, accepting RX device with no transfer context. -/
def idleReadDev : EzdmaDrvdata :=
  { dir := EzdmaDir.devToCpu, in_use := true, accepting := true,
    state := DmaFsmState.idle, inflight := zeroInflight }

/-- An idle, open, accepting TX device with no transfer context. -/
def idleWriteDev : EzdmaDrvdata :=
  { dir := EzdmaDir.cpuToDev, in_use := true, accepting := true,
    state := DmaFsmState.idle, inflight := zeroInflight }

/-- Oracle in which every external call of the preparation path succeeds
for a transfer of np pages. -/
def allOkOrc (np : Nat) : PrepOracle :=
  { kmallocOk := true, sgAllocRv := 0, gupRv := (np : Int), dmaMapRv := np,
    prepDescOk := true, cookie := 1 }

/-- Oracle reproducing a short pin: get_user_pages_fast returns 1 page
where 2 were requested; everything else would succeed. -/
def shortPinOrc : PrepOracle :=
  { kmallocOk := true, sgAllocRv := 0, gupRv := 1, dmaMapRv := 2,
    prepDescOk := true, cookie := 1 }

/-- Wait environment of an undisturbed transfer: no signal, callback ran,
wait returned 0, reacquisition succeeded. -/
def quietEnv : WaitEnv :=
  { downInterrupted := false, callbackRan := true, wait_rv := 0, downTimeoutFailed := false }

/-- Wait environment of a caller interrupted by a signal while the
transfer is still in flight. -/
def signalEnv : WaitEnv :=
  { downInterrupted := false, callbackRan := false, wait_rv := -ERESTARTSYS,
    downTimeoutFailed := false }

/-- Wait environment of the Stuck condition: the wait finished but
down_timeout failed to reacquire the semaphore. -/
def stuckEnv : WaitEnv :=
  { downInterrupted := false, callbackRan := false, wait_rv := 0, downTimeoutFailed := true }

/-- Shape of the state ezdma_unprepare_after_dma leaves behind: DMA_IDLE,
with dma_mapped, pages_pinned, table_allocated cleared, the table emptied
and the page array pointer NULL.  Note that dma_started is untouched. -/
theorem unprepare_fst (p : EzdmaDrvdata) :
    (ezdma_unprepare_after_dma p).1 =
      { p with
        state := DmaFsmState.idle,
        inflight := { p.inflight with
                      dma_mapped := false, pages_pinned := false,
                      table_allocated := false, table := [], pinned_pages := false } } := rfl

/-- Outcome of ezdma_prepare_for_dma when every external call succeeds. -/
theorem prepare_success (p : EzdmaDrvdata) (orc : PrepOracle) (ub cnt : Nat)
    (h1 : orc.kmallocOk = true) (h2 : orc.sgAllocRv = 0)
    (h3 : orc.gupRv = (ezdma_num_pages ub cnt : Int))
    (h4 : orc.dmaMapRv = ezdma_num_pages ub cnt)
    (h5 : orc.prepDescOk = true) (h6 : DMA_MIN_COOKIE ≤ orc.cookie) :
    ezdma_prepare_for_dma p orc ub cnt =
      ({ p with state := DmaFsmState.inFlight, inflight := fullInflight ub cnt },
        0, [Event.dmaengineSubmit, Event.dmaIssuePending]) := by
  have h7 : ¬ (orc.cookie < DMA_MIN_COOKIE) := by omega
  simp [ezdma_prepare_for_dma, h1, h2, h3, h4, h5, h7, fullInflight, zeroInflight]

/-- Outcome of ezdma_prepare_for_dma when everything succeeds except the
final dmaengine_submit, which returns an invalid cookie. -/
theorem prepare_rejected (p : EzdmaDrvdata) (orc : PrepOracle) (ub cnt : Nat)
    (h1 : orc.kmallocOk = true) (h2 : orc.sgAllocRv = 0)
    (h3 : orc.gupRv = (ezdma_num_pages ub cnt : Int))
    (h4 : orc.dmaMapRv = ezdma_num_pages ub cnt)
    (h5 : orc.prepDescOk = true) (h6 : orc.cookie < DMA_MIN_COOKIE) :
    ezdma_prepare_for_dma p orc ub cnt =
      ({ p with
         state := DmaFsmState.idle,
         inflight := { zeroInflight with num_pages := ezdma_num_pages ub cnt } },
        orc.cookie,
        [Event.dmaengineSubmit, Event.dmaUnmapSg, Event.sgFreeTable, Event.kfreePages]) := by
  simp [ezdma_prepare_for_dma, h1, h2, h3, h4, h5, h6, zeroInflight,
        ezdma_unprepare_after_dma]

/-- When the accepting flag is down, ezdma_read fails with a negative
code, performs no side effect and leaves the device unchanged. -/
theorem read_fails_not_accepting (p : EzdmaDrvdata) (h : p.accepting = false)
    (orc : PrepOracle) (env : WaitEnv) (ub cnt : Nat) :
    (ezdma_read p orc env ub cnt).2.1 < 0 ∧
    (ezdma_read p orc env ub cnt).2.2 = [] ∧
    (ezdma_read p orc env ub cnt).1 = p := by
  unfold ezdma_read
  split_ifs <;> simp_all [EINVAL, EBADF, ERESTARTSYS, EZDMA_ALIGN_BYTES]

/-- When the accepting flag is down, ezdma_write fails with a negative
code, performs no side effect and leaves the device unchanged. -/
theorem write_fails_not_accepting (p : EzdmaDrvdata) (h : p.accepting = false)
    (orc : PrepOracle) (env : WaitEnv) (ub cnt : Nat) :
    (ezdma_write p orc env ub cnt).2.1 < 0 ∧
    (ezdma_write p orc env ub cnt).2.2 = [] ∧
    (ezdma_write p orc env ub cnt).1 = p := by
  unfold ezdma_write
  split_ifs <;> simp_all [EINVAL, EBADF, ERESTARTSYS, EZDMA_ALIGN_BYTES]

/-- For the i-th loop iteration with i nonzero, sg_set_page receives
offset 0 and length min(left_to_map, PAGE_SIZE). -/
theorem sgl_segment_rest (ub : Nat) (i left : Nat) (h : i ≠ 0) :
    sgl_segment ub i left = (0, min left PAGE_SIZE) := by
  simp only [sgl_segment, if_neg h]
  have : (if left > PAGE_SIZE then PAGE_SIZE else left) = min left PAGE_SIZE := by
    split_ifs <;> omega
  rw [this]

/-- From loop index 1 on, the built scatterlist agrees with the tail of
the spec description. -/
theorem build_sgl_from_rest (ub : Nat) :
    ∀ (n i left : Nat), i ≠ 0 → build_sgl_from ub n i left = spec_sgl_rest n left := by
  intro n
  induction n with
  | zero => intro i left _; rfl
  | succ m ih =>
    intro i left h
    simp only [build_sgl_from, spec_sgl_rest, sgl_segment_rest ub i left h]
    exact congrArg _ (ih (i+1) _ (Nat.succ_ne_zero i))

/-- The first loop iteration keeps the intra-page offset of the buffer and
clamps the length to min(count, PAGE_SIZE minus that offset). -/
theorem sgl_segment_zero (ub cnt : Nat) :
    sgl_segment ub 0 cnt = (offset_in_page ub, min cnt (PAGE_SIZE - offset_in_page ub)) := by
  have hoff : offset_in_page ub < PAGE_SIZE := Nat.mod_lt _ (by decide)
  simp only [sgl_segment, if_pos rfl]
  have : (if offset_in_page ub + (if cnt > PAGE_SIZE then PAGE_SIZE else cnt) > PAGE_SIZE
          then PAGE_SIZE - offset_in_page ub
          else (if cnt > PAGE_SIZE then PAGE_SIZE else cnt))
        = min cnt (PAGE_SIZE - offset_in_page ub) := by
    split_ifs <;> omega
  rw [this]
  simp

/-- The scatterlist loop emits exactly one segment per remaining page. -/
theorem build_sgl_from_length (ub : Nat) :
    ∀ (n i left : Nat), (build_sgl_from ub n i left).length = n := by
  intro n
  induction n with
  | zero => intro i left; rfl
  | succ m ih => intro i left; simp [build_sgl_from, ih]

/-- The table built from the source loop equals the table described by the
spec sentence. -/
theorem build_sgl_eq_spec (ub cnt : Nat) : build_sgl ub cnt = spec_sgl ub cnt := by
  unfold build_sgl spec_sgl
  cases hnp : ezdma_num_pages ub cnt with
  | zero => rfl
  | succ n =>
    simp only [build_sgl_from, sgl_segment_zero]
    exact congrArg _ (build_sgl_from_rest ub n 1 _ one_ne_zero)

/-- A trace that opens with the submission events and then the engine
termination satisfies terminate_precedes_release whatever follows. -/
theorem tpr_cons3 (rest : List Event) :
    terminate_precedes_release
      (Event.dmaengineSubmit :: Event.dmaIssuePending ::
        Event.dmaengineTerminateAll :: rest) := by
  refine ⟨by simp, ?_⟩
  have h : (Event.dmaengineSubmit :: Event.dmaIssuePending ::
      Event.dmaengineTerminateAll :: rest).takeWhile
        (fun x => decide (x ≠ Event.dmaengineTerminateAll)) =
      [Event.dmaengineSubmit, Event.dmaIssuePending] := rfl
  rw [h]
  intro e he
  simp at he
  rcases he with rfl | rfl <;> rfl

/-- Claim C1: every successfully pinned page should eventually be either
marked dirty and released (read direction, started transfer) or released
unmodified (write direction, or a transfer that never started), exactly
once on every exit path.  The code refutes this: put_page is only reached
when dma_started is set and the direction is DEV_TO_CPU, so teardown of a
completed write-direction transfer, and of a read-direction transfer that
never started, releases none of its pinned pages; the events of the
write-direction teardown are unmap, table free and array free only.  For
contrast, the read-direction started teardown does release page 0 exactly
once. -/
theorem C1_write_direction_pages_never_released :
    writeDoneCtx.inflight.pages_pinned = true ∧
    (ezdma_unprepare_after_dma writeDoneCtx).2.count (Event.putPage 0) = 0 ∧
    readNeverStartedCtx.inflight.pages_pinned = true ∧
    (ezdma_unprepare_after_dma readNeverStartedCtx).2.count (Event.putPage 0) = 0 ∧
    (ezdma_unprepare_after_dma writeDoneCtx).2 =
      [Event.dmaUnmapSg, Event.sgFreeTable, Event.kfreePages] ∧
    (ezdma_unprepare_after_dma inflightReadCtx).2.count (Event.putPage 0) = 1 := by decide

/-- Claim C2: a short pin should fail the whole operation with a stable
failure code and zero bytes delivered.  The code refutes the return value
part: with get_user_pages_fast returning 1 of the 2 requested pages for an
8192-byte read, teardown of the partial state does run (table freed, array
freed), yet ezdma_read returns 1 — a positive byte count smaller than the
request, which a caller reads as 1 byte successfully transferred. -/
theorem C2_short_pin_returns_positive_byte_count :
    ezdma_num_pages 0 8192 = 2 ∧
    (ezdma_read idleReadDev shortPinOrc quietEnv 0 8192).2.1 = 1 ∧
    (0 : Int) < (ezdma_read idleReadDev shortPinOrc quietEnv 0 8192).2.1 ∧
    (ezdma_read idleReadDev shortPinOrc quietEnv 0 8192).2.1 < 8192 ∧
    (ezdma_read idleReadDev shortPinOrc quietEnv 0 8192).1.inflight.table_allocated = false ∧
    (ezdma_read idleReadDev shortPinOrc quietEnv 0 8192).2.2 =
      [Event.sgFreeTable, Event.kfreePages] := by decide

/-- Counterexample to claim C3 as stated: closing a device with an
in-flight read runs no teardown — release returns 0 having terminated the
engine, but the state is still InFlight, the pages are still pinned and
the mapping still in place, and the trace holds no unmap or free event. -/
theorem C3_counterexample_release_skips_teardown :
    (ezdma_release inflightReadCtx false).2.1 = 0 ∧
    (ezdma_release inflightReadCtx false).1.state = DmaFsmState.inFlight ∧
    (ezdma_release inflightReadCtx false).1.inflight.dma_mapped = true ∧
    (ezdma_release inflightReadCtx false).1.inflight.pages_pinned = true ∧
    (ezdma_release inflightReadCtx false).2.2 = [Event.dmaengineTerminateAll] := by decide

/-- Claim C3, amended: closing the device clears the accepting flag before
anything else (it is already false even when the lock acquisition is
interrupted), then under the exclusive lock terminates any in-flight
hardware transfer and clears in_use; it does not run the teardown routine
itself (the transfer context is left to the caller that owns it), and
subsequent read or write requests on the handle fail fast with a negative
code and no side effect. -/
theorem C3_release_clears_accepting_terminates_no_teardown (p : EzdmaDrvdata) :
    (ezdma_release p true).1.accepting = false ∧
    ezdma_release p false =
      ({ p with accepting := false, in_use := false }, 0, [Event.dmaengineTerminateAll]) ∧
    (∀ (orc : PrepOracle) (env : WaitEnv) (ub cnt : Nat),
      (ezdma_read (ezdma_release p false).1 orc env ub cnt).2.1 < 0 ∧
      (ezdma_read (ezdma_release p false).1 orc env ub cnt).2.2 = []) ∧
    (∀ (orc : PrepOracle) (env : WaitEnv) (ub cnt : Nat),
      (ezdma_write (ezdma_release p false).1 orc env ub cnt).2.1 < 0 ∧
      (ezdma_write (ezdma_release p false).1 orc env ub cnt).2.2 = []) := by
  refine ⟨rfl, rfl, ?_, ?_⟩
  · intro orc env ub cnt
    have h := read_fails_not_accepting (ezdma_release p false).1 rfl orc env ub cnt
    exact ⟨h.1, h.2.1⟩
  · intro orc env ub cnt
    have h := write_fails_not_accepting (ezdma_release p false).1 rfl orc env ub cnt
    exact ⟨h.1, h.2.1⟩

/-- Counterexample to claim C4 as stated: teardown does not clear every
progress flag — on a completed write transfer the hardware-submission
flag dma_started is still set after ezdma_unprepare_after_dma. -/
theorem C4_counterexample_dma_started_survives :
    (ezdma_unprepare_after_dma writeDoneCtx).1.inflight.dma_started = true := by decide

/-- Claim C4, amended: teardown is idempotent — a second invocation leaves
the state unchanged and performs no release, so twice is observably equal
to once with no double-release — and it always finishes with state Idle,
with dma_mapped, pages_pinned and table_allocated cleared and the page
array pointer NULL, for every initial subset of progress flags; the
dma_started flag, however, is left exactly as it was. -/
theorem C4_teardown_idempotent (p : EzdmaDrvdata) :
    ezdma_unprepare_after_dma (ezdma_unprepare_after_dma p).1 =
      ((ezdma_unprepare_after_dma p).1, []) ∧
    (ezdma_unprepare_after_dma p).1.state = DmaFsmState.idle ∧
    (ezdma_unprepare_after_dma p).1.inflight.dma_mapped = false ∧
    (ezdma_unprepare_after_dma p).1.inflight.pages_pinned = false ∧
    (ezdma_unprepare_after_dma p).1.inflight.table_allocated = false ∧
    (ezdma_unprepare_after_dma p).1.inflight.pinned_pages = false ∧
    (ezdma_unprepare_after_dma p).1.inflight.dma_started = p.inflight.dma_started :=
  ⟨rfl, rfl, rfl, rfl, rfl, rfl, rfl⟩

/-- Claim C5: for every buffer address and length, the computed page count
is the least number of pages covering offset_in_page(address) + length
bytes, i.e. the ceiling of that sum divided by PAGE_SIZE; the built table
has one segment per page and equals the table described by the spec: first
segment at the intra-page offset with length clamped to
min(count, PAGE_SIZE - offset), later segments at offset 0 with length
min(remaining, PAGE_SIZE). -/
theorem C5_page_count_and_descriptor_table (ub cnt : Nat) :
    offset_in_page ub + cnt ≤ PAGE_SIZE * ezdma_num_pages ub cnt ∧
    PAGE_SIZE * ezdma_num_pages ub cnt < offset_in_page ub + cnt + PAGE_SIZE ∧
    (build_sgl ub cnt).length = ezdma_num_pages ub cnt ∧
    build_sgl ub cnt = spec_sgl ub cnt := by
  refine ⟨?_, ?_, build_sgl_from_length ub _ 0 cnt, build_sgl_eq_spec ub cnt⟩ <;>
    simp only [ezdma_num_pages, offset_in_page, PAGE_SIZE] <;> omega

/-- Claim C6: when the waiting caller is interrupted by a signal while the
state is still InFlight, both ezdma_read and ezdma_write tell the engine
to terminate before any pinned page is unmapped or released, and return
the Interrupted code -ERESTARTSYS, hence zero bytes delivered. -/
theorem C6_interrupted_inflight_terminates_before_release
    (p : EzdmaDrvdata) (orc : PrepOracle) (env : WaitEnv) (ub cnt : Nat)
    (hacc : p.accepting = true)
    (h1 : orc.kmallocOk = true) (h2 : orc.sgAllocRv = 0)
    (h3 : orc.gupRv = (ezdma_num_pages ub cnt : Int))
    (h4 : orc.dmaMapRv = ezdma_num_pages ub cnt)
    (h5 : orc.prepDescOk = true) (h6 : DMA_MIN_COOKIE ≤ orc.cookie)
    (e1 : env.downInterrupted = false) (e2 : env.callbackRan = false)
    (e3 : env.wait_rv = -ERESTARTSYS) (e4 : env.downTimeoutFailed = false) :
    (p.dir = EzdmaDir.devToCpu →
      (ezdma_read p orc env ub cnt).2.1 = -ERESTARTSYS ∧
      terminate_precedes_release (ezdma_read p orc env ub cnt).2.2) ∧
    (p.dir = EzdmaDir.cpuToDev →
      (ezdma_write p orc env ub cnt).2.1 = -ERESTARTSYS ∧
      terminate_precedes_release (ezdma_write p orc env ub cnt).2.2) := by
  constructor
  · intro hdir
    simp only [ezdma_read]
    rw [prepare_success p orc ub cnt h1 h2 h3 h4 h5 h6]
    simp [hdir, hacc, e1, e2, e3, e4, EZDMA_ALIGN_BYTES, Nat.mod_one, fullInflight,
          ezdma_unprepare_after_dma]
    exact tpr_cons3 _
  · intro hdir
    simp only [ezdma_write]
    rw [prepare_success p orc ub cnt h1 h2 h3 h4 h5 h6]
    simp [hdir, hacc, e1, e2, e3, e4, EZDMA_ALIGN_BYTES, Nat.mod_one, fullInflight,
          ezdma_unprepare_after_dma]
    exact tpr_cons3 _

/-- Witness for C6 at a concrete input: an accepting RX device, a
2-page buffer, all preparation calls succeeding, signal during the
wait. -/
theorem C6_witness :
    (ezdma_read idleReadDev (allOkOrc 2) signalEnv 0 8192).2.1 = -ERESTARTSYS ∧
    terminate_precedes_release (ezdma_read idleReadDev (allOkOrc 2) signalEnv 0 8192).2.2 :=
  (C6_interrupted_inflight_terminates_before_release idleReadDev (allOkOrc 2) signalEnv 0 8192
    rfl rfl rfl (by decide) (by decide) rfl (by decide) rfl rfl rfl rfl).1 rfl

/-- Claim C7: the completion callback sets state to Completing and wakes
the wait queue exactly when the state is InFlight, and for every other
state it leaves the whole device instance unchanged and does nothing. -/
theorem C7_callback_completes_iff_in_flight (p : EzdmaDrvdata) :
    (p.state = DmaFsmState.inFlight →
      ezdma_dmaengine_callback_func p =
        ({ p with state := DmaFsmState.completing }, [Event.wakeUp])) ∧
    (p.state ≠ DmaFsmState.inFlight → ezdma_dmaengine_callback_func p = (p, [])) := by
  constructor <;> intro h <;> simp [ezdma_dmaengine_callback_func, h]

/-- Witness for C7 on a concrete in-flight device. -/
theorem C7_witness :
    ezdma_dmaengine_callback_func inflightReadCtx =
      ({ inflightReadCtx with state := DmaFsmState.completing }, [Event.wakeUp]) :=
  (C7_callback_completes_iff_in_flight inflightReadCtx).1 rfl

/-- Claim C8: during submission the state moves from Idle to InFlight; if
the engine accepts the descriptor the context is marked started and the
engine is kicked; if the engine rejects it the state reverts to Idle, the
engine error code is the result, and teardown of the prepared state runs
(mapping undone, table and array freed, no engine kick). -/
theorem C8_submission_protocol (p : EzdmaDrvdata) (orc : PrepOracle) (ub cnt : Nat)
    (_hstate : p.state = DmaFsmState.idle)
    (h1 : orc.kmallocOk = true) (h2 : orc.sgAllocRv = 0)
    (h3 : orc.gupRv = (ezdma_num_pages ub cnt : Int))
    (h4 : orc.dmaMapRv = ezdma_num_pages ub cnt)
    (h5 : orc.prepDescOk = true) :
    (DMA_MIN_COOKIE ≤ orc.cookie →
      (ezdma_prepare_for_dma p orc ub cnt).1.state = DmaFsmState.inFlight ∧
      (ezdma_prepare_for_dma p orc ub cnt).1.inflight.dma_started = true ∧
      (ezdma_prepare_for_dma p orc ub cnt).2.1 = 0 ∧
      (ezdma_prepare_for_dma p orc ub cnt).2.2 =
        [Event.dmaengineSubmit, Event.dmaIssuePending]) ∧
    (orc.cookie < DMA_MIN_COOKIE →
      (ezdma_prepare_for_dma p orc ub cnt).2.1 = orc.cookie ∧
      (ezdma_prepare_for_dma p orc ub cnt).1.state = DmaFsmState.idle ∧
      (ezdma_prepare_for_dma p orc ub cnt).1.inflight.dma_started = false ∧
      (ezdma_prepare_for_dma p orc ub cnt).1.inflight.dma_mapped = false ∧
      (ezdma_prepare_for_dma p orc ub cnt).1.inflight.pages_pinned = false ∧
      (ezdma_prepare_for_dma p orc ub cnt).1.inflight.table_allocated = false ∧
      (ezdma_prepare_for_dma p orc ub cnt).1.inflight.pinned_pages = false ∧
      (ezdma_prepare_for_dma p orc ub cnt).2.2 =
        [Event.dmaengineSubmit, Event.dmaUnmapSg, Event.sgFreeTable, Event.kfreePages]) := by
  constructor
  · intro h6
    rw [prepare_success p orc ub cnt h1 h2 h3 h4 h5 h6]
    simp [fullInflight]
  · intro h6
    rw [prepare_rejected p orc ub cnt h1 h2 h3 h4 h5 h6]
    simp [zeroInflight]

/-- Witness for C8 at a concrete input, accepted-submission branch. -/
theorem C8_witness :
    (ezdma_prepare_for_dma idleReadDev (allOkOrc 2) 0 8192).1.state = DmaFsmState.inFlight ∧
    (ezdma_prepare_for_dma idleReadDev (allOkOrc 2) 0 8192).1.inflight.dma_started = true ∧
    (ezdma_prepare_for_dma idleReadDev (allOkOrc 2) 0 8192).2.1 = 0 ∧
    (ezdma_prepare_for_dma idleReadDev (allOkOrc 2) 0 8192).2.2 =
      [Event.dmaengineSubmit, Event.dmaIssuePending] :=
  (C8_submission_protocol idleReadDev (allOkOrc 2) 0 8192
    rfl rfl rfl (by decide) (by decide) rfl).1 (by decide)

/-- Claim C9: if reacquiring the semaphore after the wait times out, both
ezdma_read and ezdma_write return the originally requested byte count —
indistinguishable from full success — and skip teardown entirely: the
transfer context stays fully allocated and the state is unchanged. -/
theorem C9_stuck_reacquire_returns_full_count
    (p : EzdmaDrvdata) (orc : PrepOracle) (env : WaitEnv) (ub cnt : Nat)
    (hacc : p.accepting = true)
    (h1 : orc.kmallocOk = true) (h2 : orc.sgAllocRv = 0)
    (h3 : orc.gupRv = (ezdma_num_pages ub cnt : Int))
    (h4 : orc.dmaMapRv = ezdma_num_pages ub cnt)
    (h5 : orc.prepDescOk = true) (h6 : DMA_MIN_COOKIE ≤ orc.cookie)
    (e1 : env.downInterrupted = false) (e2 : env.callbackRan = false)
    (e4 : env.downTimeoutFailed = true) :
    (p.dir = EzdmaDir.devToCpu →
      (ezdma_read p orc env ub cnt).2.1 = (cnt : Int) ∧
      (ezdma_read p orc env ub cnt).1.state = DmaFsmState.inFlight ∧
      (ezdma_read p orc env ub cnt).1.inflight = fullInflight ub cnt ∧
      (ezdma_read p orc env ub cnt).2.2 =
        [Event.dmaengineSubmit, Event.dmaIssuePending]) ∧
    (p.dir = EzdmaDir.cpuToDev →
      (ezdma_write p orc env ub cnt).2.1 = (cnt : Int) ∧
      (ezdma_write p orc env ub cnt).1.state = DmaFsmState.inFlight ∧
      (ezdma_write p orc env ub cnt).1.inflight = fullInflight ub cnt ∧
      (ezdma_write p orc env ub cnt).2.2 =
        [Event.dmaengineSubmit, Event.dmaIssuePending]) := by
  constructor
  · intro hdir
    simp only [ezdma_read]
    rw [prepare_success p orc ub cnt h1 h2 h3 h4 h5 h6]
    simp [hdir, hacc, e1, e2, e4, EZDMA_ALIGN_BYTES, Nat.mod_one]
  · intro hdir
    simp only [ezdma_write]
    rw [prepare_success p orc ub cnt h1 h2 h3 h4 h5 h6]
    simp [hdir, hacc, e1, e2, e4, EZDMA_ALIGN_BYTES, Nat.mod_one]

/-- Witness for C9 at a concrete input: stuck reacquisition after a
2-page read whose preparation succeeded. -/
theorem C9_witness :
    (ezdma_read idleReadDev (allOkOrc 2) stuckEnv 0 8192).2.1 = (8192 : Int) ∧
    (ezdma_read idleReadDev (allOkOrc 2) stuckEnv 0 8192).1.state = DmaFsmState.inFlight ∧
    (ezdma_read idleReadDev (allOkOrc 2) stuckEnv 0 8192).1.inflight = fullInflight 0 8192 ∧
    (ezdma_read idleReadDev (allOkOrc 2) stuckEnv 0 8192).2.2 =
      [Event.dmaengineSubmit, Event.dmaIssuePending] :=
  (C9_stuck_reacquire_returns_full_count idleReadDev (allOkOrc 2) stuckEnv 0 8192
    rfl rfl rfl (by decide) (by decide) rfl (by decide) rfl rfl rfl).1 rfl

/-- Claim C10: when the interruptible semaphore acquisition inside release
is interrupted, release returns -ERESTARTSYS with the accepting flag
already cleared, in_use still set and no engine termination performed;
the instance is then simultaneously non-accepting and busy, so a new open
fails with -EBUSY and new read or write requests fail with a negative
code. -/
theorem C10_interrupted_release_leaves_busy_not_accepting
    (p : EzdmaDrvdata) (h : p.in_use = true) :
    (ezdma_release p true).2.1 = -ERESTARTSYS ∧
    (ezdma_release p true).1.accepting = false ∧
    (ezdma_release p true).1.in_use = true ∧
    (ezdma_release p true).2.2 = [] ∧
    (ezdma_open (ezdma_release p true).1 false).2 = -EBUSY ∧
    (∀ (orc : PrepOracle) (env : WaitEnv) (ub cnt : Nat),
      (ezdma_read (ezdma_release p true).1 orc env ub cnt).2.1 < 0) ∧
    (∀ (orc : PrepOracle) (env : WaitEnv) (ub cnt : Nat),
      (ezdma_write (ezdma_release p true).1 orc env ub cnt).2.1 < 0) := by
  refine ⟨rfl, rfl, h, rfl, by simp [ezdma_release, ezdma_open, h], ?_, ?_⟩
  · intro orc env ub cnt
    exact (read_fails_not_accepting (ezdma_release p true).1 rfl orc env ub cnt).1
  · intro orc env ub cnt
    exact (write_fails_not_accepting (ezdma_release p true).1 rfl orc env ub cnt).1

/-- Witness for C10 on a concrete open device with an in-flight
transfer. -/
theorem C10_witness :
    (ezdma_release inflightReadCtx true).2.1 = -ERESTARTSYS ∧
    (ezdma_release inflightReadCtx true).1.accepting = false ∧
    (ezdma_release inflightReadCtx true).1.in_use = true ∧
    (ezdma_open (ezdma_release inflightReadCtx true).1 false).2 = -EBUSY := by
  have h := C10_interrupted_release_leaves_busy_not_accepting inflightReadCtx rfl
  exact ⟨h.1, h.2.1, h.2.2.1, h.2.2.2.2.1⟩
